import Mathlib

/-!
Shallow embedding of the ticket scoring and ranking core of
`releases/fscommander.py` (version 1.0.5, the canonical variant), together
with the readability mapper it shares with the pipeline.

Tickets are Python dicts; the fields relevant to scoring, ranking and display
are modelled as a Lean structure.  The `status` and `priority` fields hold
integer codes from the API until `make_status_priority_readable` overwrites
them with string labels, so they are modelled as an int-or-string sum type.
The optional `score` and `sort_key` keys added by `sort_tickets` are modelled
as `Option` fields that start out `none`.
-/

namespace FSCommander

/-- A Python value that is either an integer or a string.  Ticket `status`
and `priority` hold integer codes until the readability mapper replaces them
with labels. -/
inductive PyVal where
  | int (n : Int)
  | str (s : String)
deriving DecidableEq, Repr

/-- Lookup key into `SCORING_MAP`, as built by `calculate_sort_key`: either
the 3-tuple `(account_tier, "escalated", environment)` or the 4-tuple
`(account_tier, priority, environment, ticket_type)`.  In Python these are
tuples of different lengths, hence never equal across the two shapes. -/
inductive ScoreKey where
  | esc (account_tier : String) (environment : String)
  | normal (account_tier : String) (priority : PyVal) (environment : String)
      (ticket_type : String)
deriving DecidableEq, Repr

set_option maxHeartbeats 1000000 in
/-- The 76-entry policy table `SCORING_MAP` of `releases/fscommander.py`,
lines 268-345, reproduced entry for entry in source order. -/
def SCORING_MAP : List (ScoreKey × Int) := [
  (ScoreKey.normal "A" (PyVal.int 4) "Production" "Incident or Problem", 76),
  (ScoreKey.normal "A" (PyVal.int 4) "Lab" "Incident or Problem", 75),
  (ScoreKey.normal "B" (PyVal.int 4) "Production" "Incident or Problem", 74),
  (ScoreKey.normal "B" (PyVal.int 4) "Lab" "Incident or Problem", 73),
  (ScoreKey.normal "C" (PyVal.int 4) "Production" "Incident or Problem", 72),
  (ScoreKey.normal "C" (PyVal.int 4) "Lab" "Incident or Problem", 71),
  (ScoreKey.normal "D" (PyVal.int 4) "Production" "Incident or Problem", 70),
  (ScoreKey.normal "D" (PyVal.int 4) "Lab" "Incident or Problem", 69),
  (ScoreKey.normal "E" (PyVal.int 4) "Production" "Incident or Problem", 68),
  (ScoreKey.normal "E" (PyVal.int 4) "Lab" "Incident or Problem", 67),
  (ScoreKey.esc "A" "Production", 66),
  (ScoreKey.esc "A" "Lab", 65),
  (ScoreKey.esc "B" "Production", 64),
  (ScoreKey.esc "B" "Lab", 63),
  (ScoreKey.esc "C" "Production", 62),
  (ScoreKey.esc "C" "Lab", 61),
  (ScoreKey.normal "A" (PyVal.int 3) "Production" "Incident or Problem", 60),
  (ScoreKey.normal "A" (PyVal.int 3) "Lab" "Incident or Problem", 59),
  (ScoreKey.normal "B" (PyVal.int 3) "Production" "Incident or Problem", 58),
  (ScoreKey.normal "B" (PyVal.int 3) "Lab" "Incident or Problem", 57),
  (ScoreKey.normal "C" (PyVal.int 3) "Production" "Incident or Problem", 56),
  (ScoreKey.normal "C" (PyVal.int 3) "Lab" "Incident or Problem", 55),
  (ScoreKey.normal "A" (PyVal.int 3) "Production" "Service request", 54),
  (ScoreKey.normal "A" (PyVal.int 3) "Lab" "Service request", 53),
  (ScoreKey.normal "B" (PyVal.int 3) "Production" "Service request", 52),
  (ScoreKey.normal "B" (PyVal.int 3) "Lab" "Service request", 51),
  (ScoreKey.normal "C" (PyVal.int 3) "Production" "Service request", 50),
  (ScoreKey.normal "C" (PyVal.int 3) "Lab" "Service request", 49),
  (ScoreKey.normal "D" (PyVal.int 3) "Production" "Incident or Problem", 48),
  (ScoreKey.normal "D" (PyVal.int 3) "Lab" "Incident or Problem", 47),
  (ScoreKey.normal "E" (PyVal.int 3) "Production" "Incident or Problem", 46),
  (ScoreKey.normal "E" (PyVal.int 3) "Lab" "Incident or Problem", 45),
  (ScoreKey.normal "A" (PyVal.int 2) "Production" "Incident or Problem", 44),
  (ScoreKey.normal "A" (PyVal.int 2) "Lab" "Incident or Problem", 43),
  (ScoreKey.normal "B" (PyVal.int 2) "Production" "Incident or Problem", 42),
  (ScoreKey.normal "B" (PyVal.int 2) "Lab" "Incident or Problem", 41),
  (ScoreKey.esc "D" "Production", 40),
  (ScoreKey.esc "D" "Lab", 39),
  (ScoreKey.normal "C" (PyVal.int 2) "Production" "Incident or Problem", 38),
  (ScoreKey.normal "C" (PyVal.int 2) "Lab" "Incident or Problem", 37),
  (ScoreKey.normal "A" (PyVal.int 2) "Production" "Service request", 36),
  (ScoreKey.normal "A" (PyVal.int 2) "Lab" "Service request", 35),
  (ScoreKey.normal "B" (PyVal.int 2) "Production" "Service request", 34),
  (ScoreKey.normal "B" (PyVal.int 2) "Lab" "Service request", 33),
  (ScoreKey.normal "C" (PyVal.int 2) "Production" "Service request", 32),
  (ScoreKey.normal "C" (PyVal.int 2) "Lab" "Service request", 31),
  (ScoreKey.esc "E" "Production", 30),
  (ScoreKey.esc "E" "Lab", 29),
  (ScoreKey.normal "D" (PyVal.int 2) "Production" "Incident or Problem", 28),
  (ScoreKey.normal "D" (PyVal.int 2) "Lab" "Incident or Problem", 27),
  (ScoreKey.normal "D" (PyVal.int 2) "Production" "Service request", 26),
  (ScoreKey.normal "D" (PyVal.int 2) "Lab" "Service request", 25),
  (ScoreKey.normal "E" (PyVal.int 2) "Production" "Incident or Problem", 24),
  (ScoreKey.normal "E" (PyVal.int 2) "Lab" "Incident or Problem", 23),
  (ScoreKey.normal "E" (PyVal.int 2) "Production" "Service request", 22),
  (ScoreKey.normal "E" (PyVal.int 2) "Lab" "Service request", 21),
  (ScoreKey.normal "A" (PyVal.int 1) "Production" "Incident or Problem", 20),
  (ScoreKey.normal "A" (PyVal.int 1) "Lab" "Incident or Problem", 19),
  (ScoreKey.normal "B" (PyVal.int 1) "Production" "Incident or Problem", 18),
  (ScoreKey.normal "B" (PyVal.int 1) "Lab" "Incident or Problem", 17),
  (ScoreKey.normal "C" (PyVal.int 1) "Production" "Incident or Problem", 16),
  (ScoreKey.normal "C" (PyVal.int 1) "Lab" "Incident or Problem", 15),
  (ScoreKey.normal "A" (PyVal.int 1) "Production" "Service request", 14),
  (ScoreKey.normal "A" (PyVal.int 1) "Lab" "Service request", 13),
  (ScoreKey.normal "B" (PyVal.int 1) "Production" "Service request", 12),
  (ScoreKey.normal "B" (PyVal.int 1) "Lab" "Service request", 11),
  (ScoreKey.normal "C" (PyVal.int 1) "Production" "Service request", 10),
  (ScoreKey.normal "C" (PyVal.int 1) "Lab" "Service request", 9),
  (ScoreKey.normal "D" (PyVal.int 1) "Production" "Incident or Problem", 8),
  (ScoreKey.normal "D" (PyVal.int 1) "Lab" "Incident or Problem", 7),
  (ScoreKey.normal "D" (PyVal.int 1) "Production" "Service request", 6),
  (ScoreKey.normal "D" (PyVal.int 1) "Lab" "Service request", 5),
  (ScoreKey.normal "E" (PyVal.int 1) "Production" "Incident or Problem", 4),
  (ScoreKey.normal "E" (PyVal.int 1) "Lab" "Incident or Problem", 3),
  (ScoreKey.normal "E" (PyVal.int 1) "Production" "Service request", 2),
  (ScoreKey.normal "E" (PyVal.int 1) "Lab" "Service request", 1)]

/-- Lookup of a key in an association list; models Python `dict.get(key)`
returning `None` when the key is absent (the table has distinct keys, so
first-match lookup agrees with dict semantics). -/
def findEntry (m : List (ScoreKey × Int)) (k : ScoreKey) : Option Int :=
  match m with
  | [] => none
  | (k', v) :: rest => if k' = k then some v else findEntry rest k

/-- A ticket record: the dict fields that the scoring, ranking and display
code reads, plus the `score` and `sort_key` keys that `sort_tickets` adds
(absent, i.e. `none`, on input). -/
structure Ticket where
  id : Int
  department_id : Int
  subject : String
  priority : PyVal
  status : PyVal
  is_escalated : Bool
  account_tier : Option String
  environment : Option String
  ticket_type : String
  created_at : String
  score : Option Int := none
  sort_key : Option (Int × String) := none
deriving DecidableEq, Repr

/-- The diagnostics `calculate_sort_key` logs: one warning naming the ticket
id and the field, for each of `account_tier` and `environment` that is
missing (lines 356-361 of `releases/fscommander.py`). -/
def diagnostics (t : Ticket) : List (Int × String) :=
  (if t.account_tier = none then [(t.id, "account_tier")] else []) ++
    (if t.environment = none then [(t.id, "environment")] else [])

/-- The lookup key `calculate_sort_key` builds: defaults applied
(`account_tier` missing → `"C"`, `environment` missing → `"Production"`),
then the escalated 3-tuple or the normal 4-tuple. -/
def score_key (t : Ticket) : ScoreKey :=
  let account_tier := t.account_tier.getD "C"
  let environment := t.environment.getD "Production"
  if t.is_escalated then ScoreKey.esc account_tier environment
  else ScoreKey.normal account_tier t.priority environment t.ticket_type

/-- The score: `SCORING_MAP.get(score_key, 0)` (line 370). -/
def score (t : Ticket) : Int := (findEntry SCORING_MAP (score_key t)).getD 0

/-- `calculate_sort_key`: returns `(-score, created_at)` (line 372). -/
def calculate_sort_key (t : Ticket) : Int × String :=
  (-score t, t.created_at)

/-- The decoration pass of `sort_tickets` (lines 378-381): store the actual
score under `score` and the sort key under `sort_key`. -/
def decorate (t : Ticket) : Ticket :=
  let sk := calculate_sort_key t
  { t with score := some (-sk.1), sort_key := some sk }

/-- Python comparison `<=` on the `(Int, String)` sort-key tuples: lexicographic,
first component by integer order, second by string order. -/
def pairLe (x y : Int × String) : Prop :=
  x.1 < y.1 ∨ (x.1 = y.1 ∧ x.2 ≤ y.2)

instance (x y : Int × String) : Decidable (pairLe x y) := by
  unfold pairLe; infer_instance

/-- Comparison used by `tickets.sort` with the stored key (line 384): compare
the stored sort keys (always present after the decoration pass). -/
def sortKeyLe (a b : Ticket) : Bool :=
  decide (pairLe (a.sort_key.getD (0, "")) (b.sort_key.getD (0, "")))

/-- `sort_tickets` (lines 376-391): decorate every ticket with its score and
sort key, then stably sort by the sort key.  The Python `list.sort` is a
stable sort; it is modelled by `List.mergeSort`. -/
def sort_tickets (tickets : List Ticket) : List Ticket :=
  (tickets.map decorate).mergeSort sortKeyLe

/-- Status-code table of `make_status_priority_readable` (lines 237-251). -/
def status_mapping : List (Int × String) := [
  (2, "Open"), (3, "Pending"), (4, "Resolved"), (5, "Closed"), (6, "New"),
  (7, "Pending access"), (8, "Waiting for RnD"), (9, "Pending other ticket"),
  (10, "Waiting for maintenance"), (11, "Waiting for bugfix"),
  (12, "Service request triage"), (13, "Rejected"), (14, "Duplicate")]

/-- Priority-code table of `make_status_priority_readable` (lines 253-258). -/
def priority_mapping : List (Int × String) := [
  (1, "Low"), (2, "Medium"), (3, "High"), (4, "Urgent")]

/-- Python `mapping.get(value, default)` for an int-keyed dict applied to an
int-or-string value: a string value is never equal to an integer key, so it
always takes the default. -/
def mapGetPy (m : List (Int × String)) (v : PyVal) (d : String) : String :=
  match v with
  | .int n =>
    match m.find? (fun p => p.1 = n) with
    | some p => p.2
    | none => d
  | .str _ => d

/-- The per-ticket update of `make_status_priority_readable` (lines 261-263):
overwrite `status` and `priority` with their labels, `"Unknown Status"` /
`"Unknown Priority"` when the value is not a key of the table. -/
def readTicket (t : Ticket) : Ticket :=
  { t with status := PyVal.str (mapGetPy status_mapping t.status "Unknown Status"),
           priority := PyVal.str (mapGetPy priority_mapping t.priority "Unknown Priority") }

/-- `make_status_priority_readable` (lines 235-265): update every ticket. -/
def make_status_priority_readable (tickets : List Ticket) : List Ticket :=
  tickets.map readTicket

/-- The pipeline of `main` (lines 583-586): sort, then relabel. -/
def pipeline (tickets : List Ticket) : List Ticket :=
  make_status_priority_readable (sort_tickets tickets)

/-! ### Concrete tickets used in scenarios, witnesses and counterexamples -/

/-- Tier A, priority 4 Urgent, Production, Incident or Problem. -/
def ticketTop : Ticket :=
  { id := 1, department_id := 1, subject := "s", priority := .int 4,
    status := .int 2, is_escalated := false, account_tier := some "A",
    environment := some "Production", ticket_type := "Incident or Problem",
    created_at := "2024-01-01T00:00:00Z" }

/-- Tier E, priority 1, Lab, Service request. -/
def ticketBottom : Ticket :=
  { ticketTop with
    id := 2
    priority := .int 1
    account_tier := some "E"
    environment := some "Lab"
    ticket_type := "Service request" }

/-- Missing tier and environment, priority 2, Incident or Problem. -/
def ticketDefaults : Ticket :=
  { ticketTop with
    id := 3
    priority := .int 2
    account_tier := none
    environment := none }

/-- Escalated, tier A, Lab. -/
def ticketEscalatedALab : Ticket :=
  { ticketTop with
    id := 4
    is_escalated := true
    environment := some "Lab" }

/-- Escalated, tier E, Production. -/
def ticketEscalatedEProd : Ticket :=
  { ticketTop with
    id := 5
    is_escalated := true
    account_tier := some "E" }

/-- Escalated, tier E, Lab. -/
def ticketEscalatedELab : Ticket :=
  { ticketEscalatedEProd with
    id := 6
    environment := some "Lab" }

/-- Tier D, priority 4, Production, Service request (no table entry). -/
def ticketD4SR : Ticket :=
  { ticketTop with
    id := 7
    account_tier := some "D"
    ticket_type := "Service request" }

/-- Tier E, priority 4, Lab, Service request (no table entry). -/
def ticketE4SR : Ticket :=
  { ticketTop with
    id := 8
    account_tier := some "E"
    environment := some "Lab"
    ticket_type := "Service request" }

/-- Account tier "Z": no table entry under any priority. -/
def ticketUnknownTier : Ticket :=
  { ticketTop with id := 9, account_tier := some "Z" }

/-- Escalated tier B Production with one priority and type. -/
def ticketEscB1 : Ticket :=
  { ticketTop with
    id := 10
    is_escalated := true
    account_tier := some "B" }

/-- As `ticketEscB1` but a different priority and ticket type. -/
def ticketEscB2 : Ticket :=
  { ticketEscB1 with
    id := 11
    priority := .int 1
    ticket_type := "Service request" }

/-- First of a pair of tickets that tie on score and creation time. -/
def ticketTie1 : Ticket := { ticketTop with id := 12 }

/-- Second of the pair: same score and `created_at`, different id. -/
def ticketTie2 : Ticket := { ticketTop with id := 13 }

/-! ### Helper lemmas -/

theorem findEntry_mem {m : List (ScoreKey × Int)} {k : ScoreKey} {v : Int}
    (h : findEntry m k = some v) : (k, v) ∈ m := by
  induction m with
  | nil => simp [findEntry] at h
  | cons p rest ih =>
    rcases p with ⟨k', v'⟩
    by_cases hk : k' = k
    · subst hk
      simp only [findEntry, if_true, eq_self_iff_true, Option.some.injEq] at h
      subst h
      exact List.mem_cons_self _ _
    · simp only [findEntry, if_neg hk] at h
      exact List.mem_cons_of_mem _ (ih h)

theorem SCORING_MAP_bounds : ∀ p ∈ SCORING_MAP, 0 < p.2 ∧ p.2 ≤ 76 := by decide

theorem score_nonneg (t : Ticket) : 0 ≤ score t := by
  unfold score
  cases h : findEntry SCORING_MAP (score_key t) with
  | none => simp
  | some v =>
    simpa using le_of_lt (SCORING_MAP_bounds _ (findEntry_mem h)).1

theorem score_le (t : Ticket) : score t ≤ 76 := by
  unfold score
  cases h : findEntry SCORING_MAP (score_key t) with
  | none => simp
  | some v =>
    simpa using (SCORING_MAP_bounds _ (findEntry_mem h)).2

theorem pairLe_trans {x y z : Int × String} (h1 : pairLe x y) (h2 : pairLe y z) :
    pairLe x z := by
  rcases h1 with h1 | ⟨h1, h1'⟩ <;> rcases h2 with h2 | ⟨h2, h2'⟩
  · exact Or.inl (lt_trans h1 h2)
  · exact Or.inl (h2 ▸ h1)
  · exact Or.inl (h1 ▸ h2)
  · exact Or.inr ⟨h1.trans h2, le_trans h1' h2'⟩

theorem pairLe_total (x y : Int × String) : pairLe x y ∨ pairLe y x := by
  rcases lt_trichotomy x.1 y.1 with h | h | h
  · exact Or.inl (Or.inl h)
  · rcases le_total x.2 y.2 with h' | h'
    · exact Or.inl (Or.inr ⟨h, h'⟩)
    · exact Or.inr (Or.inr ⟨h.symm, h'⟩)
  · exact Or.inr (Or.inl h)

theorem sortKeyLe_trans (a b c : Ticket) (h1 : sortKeyLe a b) (h2 : sortKeyLe b c) :
    sortKeyLe a c := by
  simp only [sortKeyLe, decide_eq_true_eq] at h1 h2 ⊢
  exact pairLe_trans h1 h2

theorem sortKeyLe_total (a b : Ticket) : sortKeyLe a b || sortKeyLe b a := by
  rcases pairLe_total (a.sort_key.getD (0, "")) (b.sort_key.getD (0, "")) with h | h <;>
    simp [sortKeyLe, h]

theorem decorate_decorate (t : Ticket) : decorate (decorate t) = decorate t := rfl

theorem decorate_score (t : Ticket) : (decorate t).score = some (score t) := by
  simp [decorate, calculate_sort_key]

theorem decorate_sort_key (t : Ticket) :
    (decorate t).sort_key = some (-score t, t.created_at) := rfl

theorem decorate_created_at (t : Ticket) : (decorate t).created_at = t.created_at := rfl

theorem mem_sort_tickets {ts : List Ticket} {x : Ticket} :
    x ∈ sort_tickets ts ↔ x ∈ ts.map decorate := List.mem_mergeSort

/-! ### Claim theorems -/

/-- C1: for every ticket the Score Resolver returns an integer score in
[0, 76]; the score equals the entry of the policy table for the lookup
key when that key is present and 0 when it is absent; the ticket
(A, 4, Production, Incident or Problem, not escalated) scores 76 and
(E, 1, Lab, Service request, not escalated) scores 1. -/
theorem C1_score_resolver :
    (∀ t : Ticket, 0 ≤ score t ∧ score t ≤ 76 ∧
      (∀ v, findEntry SCORING_MAP (score_key t) = some v → score t = v) ∧
      (findEntry SCORING_MAP (score_key t) = none → score t = 0)) ∧
    score ticketTop = 76 ∧ score ticketBottom = 1 := by
  refine ⟨fun t => ⟨score_nonneg t, score_le t, ?_, ?_⟩, by decide, by decide⟩
  · intro v h
    simp [score, h]
  · intro h
    simp [score, h]

/-- Witness for C1: the table lookup cases discharged at concrete tickets. -/
theorem C1_score_resolver_witness :
    score ticketTop = 76 ∧ score ticketUnknownTier = 0 :=
  ⟨(C1_score_resolver.1 ticketTop).2.2.1 76 (by decide),
   (C1_score_resolver.1 ticketUnknownTier).2.2.2 (by decide)⟩

/-- C4 counterexample: the claim says an escalated ticket with account tier E
scores 0, but the policy table has entries for escalated tier E — Production
scores 30 and Lab scores 29, not 0. -/
theorem C4_counterexample :
    score ticketEscalatedEProd = 30 ∧ score ticketEscalatedELab = 29 ∧
      score ticketEscalatedEProd ≠ 0 := by decide

/-- C4 amended: every combination absent from the policy table scores 0; in
particular tier D or E tickets at priority 4 of type Service request score 0.
Escalated tier-E tickets are in the table (30 for Production, 29 for Lab),
not omitted. -/
theorem C4_omitted_combinations :
    (∀ t : Ticket, findEntry SCORING_MAP (score_key t) = none → score t = 0) ∧
    score ticketD4SR = 0 ∧ score ticketE4SR = 0 ∧
    score ticketEscalatedEProd = 30 ∧ score ticketEscalatedELab = 29 := by
  refine ⟨fun t h => by simp [score, h], by decide, by decide, by decide, by decide⟩

/-- Witness for the amended C4 theorem, at a ticket with an unmapped key. -/
theorem C4_omitted_combinations_witness : score ticketD4SR = 0 :=
  C4_omitted_combinations.1 ticketD4SR (by decide)

/-- C5: a missing account tier or environment is replaced by the defaults C
and Production before scoring, with one diagnostic per missing field naming
the ticket id and the field; the scenario ticket (tier missing, priority 2,
environment missing, Incident or Problem, not escalated) scores 38 with two
diagnostics. -/
theorem C5_defaults_applied :
    (∀ t : Ticket, score t =
      score { t with account_tier := some (t.account_tier.getD "C"),
                     environment := some (t.environment.getD "Production") }) ∧
    (∀ t : Ticket, t.account_tier = none → (t.id, "account_tier") ∈ diagnostics t) ∧
    (∀ t : Ticket, t.environment = none → (t.id, "environment") ∈ diagnostics t) ∧
    (∀ t : Ticket, (diagnostics t).length =
      (if t.account_tier = none then 1 else 0) +
        (if t.environment = none then 1 else 0)) ∧
    score ticketDefaults = 38 ∧
    diagnostics ticketDefaults = [(3, "account_tier"), (3, "environment")] := by
  refine ⟨?_, ?_, ?_, ?_, by decide, by decide⟩
  · intro t
    simp [score, score_key]
  · intro t h
    simp [diagnostics, h]
  · intro t h
    simp [diagnostics, h]
  · intro t
    cases h1 : t.account_tier <;> cases h2 : t.environment <;>
      simp [diagnostics, h1, h2]

/-- Witness for C5: diagnostics at the scenario ticket with both fields
missing. -/
theorem C5_defaults_applied_witness :
    (3, "account_tier") ∈ diagnostics ticketDefaults ∧
    (3, "environment") ∈ diagnostics ticketDefaults :=
  ⟨C5_defaults_applied.2.1 ticketDefaults rfl,
   C5_defaults_applied.2.2.1 ticketDefaults rfl⟩

/-- C6: the score of an escalated ticket depends only on its account tier
and environment, not on its numeric priority or ticket type; any escalated
tier-A Lab ticket scores 65 whatever its priority and type. -/
theorem C6_escalated_ignores_priority_and_type :
    (∀ t u : Ticket, t.is_escalated = true → u.is_escalated = true →
      t.account_tier = u.account_tier → t.environment = u.environment →
      score t = score u) ∧
    (∀ (p : PyVal) (ty : String),
      score { ticketEscalatedALab with priority := p, ticket_type := ty } = 65) := by
  constructor
  · intro t u ht hu hat he
    simp [score, score_key, ht, hu, hat, he]
  · intro p ty
    rfl

/-- Witness for C6: two escalated tier-B Production tickets that differ in
priority and type score equally, and a concrete escalated tier-A Lab ticket
scores 65. -/
theorem C6_escalated_witness :
    score ticketEscB1 = score ticketEscB2 ∧
    score { ticketEscalatedALab with priority := PyVal.int 1,
                                     ticket_type := "Service request" } = 65 :=
  ⟨C6_escalated_ignores_priority_and_type.1 ticketEscB1 ticketEscB2 rfl rfl rfl rfl,
   C6_escalated_ignores_priority_and_type.2 (PyVal.int 1) "Service request"⟩

/-- C2: the Ranker output is sorted — for adjacent positions the score is
non-increasing, and among equal scores the creation timestamp is
non-decreasing (older tickets first). -/
theorem C2_output_sorted (ts : List Ticket) :
    (sort_tickets ts).Chain' (fun a b =>
      ∀ sa sb, a.score = some sa → b.score = some sb →
        sb ≤ sa ∧ (sa = sb → a.created_at ≤ b.created_at)) := by
  have hp : (sort_tickets ts).Pairwise (fun a b => sortKeyLe a b = true) :=
    List.sorted_mergeSort sortKeyLe_trans sortKeyLe_total (ts.map decorate)
  refine List.Pairwise.chain' (List.Pairwise.imp_of_mem ?_ hp)
  intro a b ha hb hab sa sb hsa hsb
  obtain ⟨ta, hta, ha'⟩ := List.mem_map.1 (mem_sort_tickets.1 ha)
  obtain ⟨tb, htb, hb'⟩ := List.mem_map.1 (mem_sort_tickets.1 hb)
  subst ha'
  subst hb'
  rw [decorate_score] at hsa hsb
  have hsa' : sa = score ta := by
    injection hsa with h
    exact h.symm
  have hsb' : sb = score tb := by
    injection hsb with h
    exact h.symm
  subst hsa'
  subst hsb'
  simp only [sortKeyLe, decorate_sort_key, Option.getD_some, decide_eq_true_eq,
    pairLe] at hab
  rcases hab with h | ⟨h, h'⟩
  · constructor
    · omega
    · intro he
      exact absurd he (by omega)
  · constructor
    · omega
    · intro _
      exact h'

/-- C3: the Ranker permutes its input — the output has the same length, its
elements are exactly the decorated input tickets (none dropped, none
duplicated), the multiset of ticket ids is unchanged, and empty input yields
empty output. -/
theorem C3_permutation (ts : List Ticket) :
    (sort_tickets ts).length = ts.length ∧
    (sort_tickets ts).Perm (ts.map decorate) ∧
    ((sort_tickets ts).map Ticket.id).Perm (ts.map Ticket.id) ∧
    sort_tickets ([] : List Ticket) = [] := by
  refine ⟨?_, List.mergeSort_perm _ _, ?_, by simp [sort_tickets]⟩
  · simp [sort_tickets]
  · have h := (List.mergeSort_perm (ts.map decorate) sortKeyLe).map Ticket.id
    rw [List.map_map] at h
    have h2 : ts.map (Ticket.id ∘ decorate) = ts.map Ticket.id :=
      List.map_congr_left (fun a _ => rfl)
    rw [h2] at h
    exact h

/-- C7: the sort is stable — two tickets with the same score and the same
creation timestamp keep their input order in the output. -/
theorem C7_stable_sort (ts : List Ticket) (a b : Ticket)
    (h : [a, b].Sublist ts) (hs : score a = score b)
    (hc : a.created_at = b.created_at) :
    [decorate a, decorate b].Sublist (sort_tickets ts) := by
  have hmap : [decorate a, decorate b].Sublist (ts.map decorate) := by
    simpa using h.map decorate
  have hab : sortKeyLe (decorate a) (decorate b) = true := by
    simp only [sortKeyLe, decorate_sort_key, Option.getD_some, decide_eq_true_eq,
      pairLe]
    exact Or.inr ⟨by rw [hs], le_of_eq (by rw [hc])⟩
  exact List.pair_sublist_mergeSort sortKeyLe_trans sortKeyLe_total hab hmap

/-- Witness for C7: two tickets identical but for their id tie on score and
creation time and keep their input order. -/
theorem C7_stable_sort_witness :
    [decorate ticketTie1, decorate ticketTie2].Sublist
      (sort_tickets [ticketTie1, ticketTie2]) :=
  C7_stable_sort [ticketTie1, ticketTie2] ticketTie1 ticketTie2
    (List.Sublist.refl _) rfl rfl

/-- C8: ranking is idempotent — sorting an already-sorted sequence
reproduces it exactly. -/
theorem C8_idempotent (ts : List Ticket) :
    sort_tickets (sort_tickets ts) = sort_tickets ts := by
  have hfix : ∀ x ∈ sort_tickets ts, decorate x = x := by
    intro x hx
    obtain ⟨t, _, rfl⟩ := List.mem_map.1 (mem_sort_tickets.1 hx)
    exact decorate_decorate t
  have hmap : (sort_tickets ts).map decorate = sort_tickets ts := by
    calc (sort_tickets ts).map decorate = (sort_tickets ts).map id :=
          List.map_congr_left hfix
    _ = sort_tickets ts := List.map_id _
  have hsorted : (sort_tickets ts).Pairwise (fun a b => sortKeyLe a b = true) :=
    List.sorted_mergeSort sortKeyLe_trans sortKeyLe_total (ts.map decorate)
  show ((sort_tickets ts).map decorate).mergeSort sortKeyLe = sort_tickets ts
  rw [hmap]
  exact List.mergeSort_of_sorted hsorted

/-- C9 counterexample: the claim says the pipeline only adds `score` and
leaves `status` and `priority` unchanged, but on a concrete ticket the
pipeline also adds a `sort_key` field and overwrites the numeric `status`
code 2 with the label "Open". -/
theorem C9_counterexample :
    (pipeline [ticketTop]).map Ticket.status = [PyVal.str "Open"] ∧
    ticketTop.status = PyVal.int 2 ∧
    (pipeline [ticketTop]).map Ticket.sort_key =
      [some (-76, "2024-01-01T00:00:00Z")] ∧
    ticketTop.sort_key = none := by
  have h1 : pipeline [ticketTop] = [readTicket (decorate ticketTop)] := by
    simp [pipeline, sort_tickets, make_status_priority_readable]
  refine ⟨?_, by decide, ?_, by decide⟩
  · rw [h1]
    decide
  · rw [h1]
    decide

/-- C9 amended: every ticket in the pipeline output arises from an input
ticket with the identity fields (id, subject, department, creation time,
escalation flag, custom fields) unchanged, the `score` and `sort_key` fields
both added, and the `status` and `priority` fields overwritten with their
labels by the readability mapper. -/
theorem C9_pipeline_decoration (ts : List Ticket) (x : Ticket)
    (hx : x ∈ pipeline ts) :
    ∃ t ∈ ts, x.id = t.id ∧ x.subject = t.subject ∧
      x.department_id = t.department_id ∧ x.created_at = t.created_at ∧
      x.is_escalated = t.is_escalated ∧ x.account_tier = t.account_tier ∧
      x.environment = t.environment ∧ x.ticket_type = t.ticket_type ∧
      x.score = some (score t) ∧
      x.sort_key = some (calculate_sort_key t) ∧
      x.status = PyVal.str (mapGetPy status_mapping t.status "Unknown Status") ∧
      x.priority = PyVal.str (mapGetPy priority_mapping t.priority "Unknown Priority") := by
  simp only [pipeline, make_status_priority_readable] at hx
  obtain ⟨y, hy, rfl⟩ := List.mem_map.1 hx
  obtain ⟨t, ht, rfl⟩ := List.mem_map.1 (mem_sort_tickets.1 hy)
  exact ⟨t, ht, rfl, rfl, rfl, rfl, rfl, rfl, rfl, rfl, decorate_score t, rfl,
    rfl, rfl⟩

/-- Witness for the amended C9 theorem: the single output of the pipeline on
one concrete ticket is that ticket, decorated and relabeled. -/
theorem C9_pipeline_decoration_witness :
    ∃ t ∈ [ticketTop], (readTicket (decorate ticketTop)).id = t.id ∧
      (readTicket (decorate ticketTop)).subject = t.subject ∧
      (readTicket (decorate ticketTop)).department_id = t.department_id ∧
      (readTicket (decorate ticketTop)).created_at = t.created_at ∧
      (readTicket (decorate ticketTop)).is_escalated = t.is_escalated ∧
      (readTicket (decorate ticketTop)).account_tier = t.account_tier ∧
      (readTicket (decorate ticketTop)).environment = t.environment ∧
      (readTicket (decorate ticketTop)).ticket_type = t.ticket_type ∧
      (readTicket (decorate ticketTop)).score = some (score t) ∧
      (readTicket (decorate ticketTop)).sort_key = some (calculate_sort_key t) ∧
      (readTicket (decorate ticketTop)).status =
        PyVal.str (mapGetPy status_mapping t.status "Unknown Status") ∧
      (readTicket (decorate ticketTop)).priority =
        PyVal.str (mapGetPy priority_mapping t.priority "Unknown Priority") :=
  C9_pipeline_decoration [ticketTop] (readTicket (decorate ticketTop))
    (by simp [pipeline, sort_tickets, make_status_priority_readable])

/-- C10: the readability mapper is not idempotent — it overwrites `status`
and `priority` in place, a ticket whose status or priority already holds a
label is mapped to "Unknown Status" / "Unknown Priority" (labels are not
keys of the integer-keyed tables), and a double application differs from a
single one on a concrete ticket. -/
theorem C10_mapper_not_idempotent :
    (∀ (t : Ticket) (s : String), t.status = PyVal.str s →
      (readTicket t).status = PyVal.str "Unknown Status") ∧
    (∀ (t : Ticket) (s : String), t.priority = PyVal.str s →
      (readTicket t).priority = PyVal.str "Unknown Priority") ∧
    (∀ t : Ticket,
      (readTicket (readTicket t)).status = PyVal.str "Unknown Status" ∧
      (readTicket (readTicket t)).priority = PyVal.str "Unknown Priority") ∧
    make_status_priority_readable (make_status_priority_readable [ticketTop]) ≠
      make_status_priority_readable [ticketTop] := by
  refine ⟨?_, ?_, ?_, by decide⟩
  · intro t s h
    simp [readTicket, mapGetPy, h]
  · intro t s h
    simp [readTicket, mapGetPy, h]
  · intro t
    constructor <;> simp [readTicket, mapGetPy]

/-- Witness for C10: a ticket already carrying the labels is mapped to the
unknown labels. -/
theorem C10_mapper_witness :
    (readTicket { ticketTop with status := PyVal.str "Open" }).status =
      PyVal.str "Unknown Status" ∧
    (readTicket { ticketTop with priority := PyVal.str "Urgent" }).priority =
      PyVal.str "Unknown Priority" :=
  ⟨C10_mapper_not_idempotent.1 { ticketTop with status := PyVal.str "Open" }
      "Open" rfl,
   C10_mapper_not_idempotent.2.1 { ticketTop with priority := PyVal.str "Urgent" }
      "Urgent" rfl⟩

end FSCommander
